import Mathlib

/-!
Shallow embedding of the error-identifier / slot / context core of
`src/libraries/cmake/source/lief/third-party/LIEF/third-party/boost/leaf/error.hpp`
(boost::leaf error.hpp, as vendored in this repository).

Machine integers: the C++ code works with 32-bit `unsigned` and `int` values;
identifiers and the allocator counter are modelled as `Nat` bit patterns in
`[0, 2^32)` with overflow made explicit via `% W32`.  The conditionally
compiled diagnostics subsystem (`BOOST_LEAF_DIAGNOSTICS`) is modelled in its
disabled configuration: the branches it guards are identities on the state
modelled here, and no claim below touches it.
-/

namespace Leaf

/-- Modulus of the 32-bit unsigned integers used by the identifier allocator. -/
def W32 : Nat := 4294967296

/-- State of `leaf_detail::id_factory` (error.hpp lines 355-373): the shared
`atomic_unsigned_int counter` (initialised from `-3`, i.e. the unsigned value
`2^32 - 3`) and the thread-local `unsigned current_id` (initialised to `0`).
Both are stored as their 32-bit unsigned bit patterns. -/
structure IdFactory where
  counter : Nat
  current_id : Nat
deriving Repr, DecidableEq

/-- Initial factory state: `counter(-3)` and `current_id(0)`. -/
def IdFactory.init : IdFactory := ⟨W32 - 3, 0⟩

/-- `id_factory::generate_next_id`: `auto id = (counter += 4); return id;`
with 32-bit unsigned wraparound made explicit. -/
def generate_next_id (f : IdFactory) : Nat × IdFactory :=
  let id := (f.counter + 4) % W32
  (id, { f with counter := id })

/-- `leaf_detail::new_id` (error.hpp lines 382-386):
`return id_factory<>::current_id = id_factory<>::generate_next_id();`. -/
def new_id (f : IdFactory) : Nat × IdFactory :=
  let r := generate_next_id f
  (r.1, { r.2 with current_id := r.1 })

/-- `leaf_detail::current_id` (error.hpp lines 375-380): reads the
thread-local `current_id`. -/
def current_id (f : IdFactory) : Nat :=
  f.current_id

/-- Factory state after `n` successive calls to `new_id()` starting from the
initial state.  The counter is shared and atomically incremented, so in any
thread interleaving the value returned by the `n`-th allocation process-wide
is the one produced here. -/
def allocN : Nat → IdFactory
  | 0 => IdFactory.init
  | n + 1 => (new_id (allocN n)).2

/-- Contents of LEAF's `optional<E>` as used by `slot<E>`: `none` models an
empty optional (`key_ == 0`), `some (k, v)` models key `k` with value `v`.
Modelled from the spec: the optional-value container is an external
collaborator (spec section 6) with `put` (overwrite), `has_value`
(presence keyed by identifier), `empty`, and destructive move; its source
(`boost/leaf/detail/optional.hpp`) is not under `src/`. -/
abbrev Optional (E : Type) := Option (Nat × E)

/-- `optional<E>::has_value(int key)`: the stored value if one is present
under exactly this key, else absence. -/
def hasValue {E : Type} (c : Optional E) (key : Nat) : Option E :=
  match c with
  | some (k, v) => if k = key then some v else none
  | none => none

/-- Thread-scoped state for one payload type `E`.  Slot objects are named by
`Nat` identities: `store i` is the contents of slot object `i` (its
`optional<E>` base), `prev i` is its `prev_` pointer as recorded at its most
recent activation, and `top` is the thread-local `tl_slot_ptr<E>()` (the
current top of the activation stack, if any).  `ctxActive` is the
`is_active()` flag of the one context modelled here (see `Ctx`). -/
structure World (E : Type) where
  store : Nat → Optional E
  prev : Nat → Option Nat
  top : Option Nat
  ctxActive : Bool

/-- `slot<E>::activate` (error.hpp lines 237-243): record the current top as
this slot's predecessor and make this slot the top. -/
def slotActivate {E : Type} (sid : Nat) (w : World E) : World E :=
  { w with
    prev := fun j => if j = sid then w.top else w.prev j,
    top := some sid }

/-- `slot<E>::deactivate` (error.hpp lines 245-249): `*top_ = prev_;`,
restoring the recorded predecessor as the top. -/
def slotDeactivate {E : Type} (sid : Nat) (w : World E) : World E :=
  { w with top := w.prev sid }

/-- `slot<E>::propagate` (error.hpp lines 290-313): if a predecessor was
recorded, and the predecessor's optional is empty, move this slot's optional
into it (destructive move: the source becomes empty); if the predecessor
already holds a value, nothing changes.  The no-predecessor branch is the
`BOOST_LEAF_DIAGNOSTICS` hand-off, compiled out in the modelled
configuration, hence an identity here. -/
def slotPropagate {E : Type} (sid : Nat) (w : World E) : World E :=
  match w.prev sid with
  | some p =>
    match w.store p with
    | none =>
      { w with store := fun j =>
          if j = p then w.store sid else if j = sid then none else w.store j }
    | some _ => w
  | none => w

/-- `leaf_detail::load_slot` (error.hpp lines 315-333): if a slot of the
payload type is active on the thread, `put` the value into it under `err_id`
(overwriting); otherwise the `BOOST_LEAF_DIAGNOSTICS` branch is compiled out
and the value is discarded. -/
def load_slot {E : Type} (err_id : Nat) (e : E) (w : World E) : World E :=
  match w.top with
  | some i =>
    { w with store := fun j => if j = i then some (err_id, e) else w.store j }
  | none => w

/-- `leaf_detail::accumulate_slot` (error.hpp lines 335-348): if a slot of
the callback's argument type is active, then if it already holds a value
under `err_id` the callback mutates that value in place, else a
default-constructed value is `put` under `err_id` and the callback mutates
it; with no active slot nothing happens. -/
def accumulate_slot {E : Type} [Inhabited E] (err_id : Nat) (f : E → E)
    (w : World E) : World E :=
  match w.top with
  | some i =>
    match hasValue (w.store i) err_id with
    | some v =>
      { w with store := fun j => if j = i then some (err_id, f v) else w.store j }
    | none =>
      { w with store := fun j =>
          if j = i then some (err_id, f default) else w.store j }
  | none => w

/-- Items passed to `error_id::load`, by loader shape (error.hpp lines
391-425): a plain value (arity `-1`), a zero-argument callback (arity `0`),
or a one-argument accumulator callback (arity `1`). -/
inductive Item (E : Type) where
  | value : E → Item E
  | fn0 : (Unit → E) → Item E
  | fn1 : (E → E) → Item E

/-- `leaf_detail::load_item<T,Arity>::load` dispatch (error.hpp lines
399-424): values and zero-argument callbacks go through `load_slot`,
one-argument callbacks through `accumulate_slot`. -/
def load_item {E : Type} [Inhabited E] (err_id : Nat) :
    Item E → World E → World E
  | .value e => load_slot err_id e
  | .fn0 f => load_slot err_id (f ())
  | .fn1 f => accumulate_slot err_id f

/-- `class error_id` (error.hpp lines 488-578): wraps the `int value_`,
modelled as its 32-bit pattern. -/
structure ErrorId where
  value_ : Nat
deriving Repr, DecidableEq

/-- `error_id::value()` (error.hpp lines 534-543): `0` stays `0`, a nonzero
value is normalised to `(value_ & ~3) | 1` (in 32-bit patterns,
`~3 = 4294967292`). -/
def ErrorId.value (x : ErrorId) : Nat :=
  if x.value_ ≠ 0 then (x.value_ &&& 4294967292) ||| 1 else 0

/-- `operator==(error_id, error_id)` (error.hpp lines 550-553): compares the
underlying `value_` only. -/
def ErrorId.beq (a b : ErrorId) : Bool :=
  a.value_ == b.value_

/-- `error_id::load(Item && ... item)` (error.hpp lines 513-527): if
`value()` is nonzero, dispatch every item in order through
`load_item::load` keyed by `value()`; otherwise do nothing.  Either way the
identifier itself is returned.  Items here all target one payload type `E`;
items of distinct payload types act on disjoint per-type states, so the
single-type state `World E` is the faithful per-type projection. -/
def ErrorId.load {E : Type} [Inhabited E] (x : ErrorId) (items : List (Item E))
    (w : World E) : ErrorId × World E :=
  if x.value ≠ 0 then
    (x, items.foldl (fun wa it => load_item x.value it wa) w)
  else
    (x, w)

/-- Identity of a `std::error_category`: the one LEAF sentinel category
(`leaf_detail::get_error_category<>::cat`, error.hpp lines 431-448) or a
foreign category distinguished by an identity token. -/
inductive ErrorCategory where
  | leafCat : ErrorCategory
  | foreign : Nat → ErrorCategory
deriving Repr, DecidableEq

/-- A `std::error_code`: numeric value (32-bit `int` pattern) plus category
identity. -/
structure ErrorCode where
  val : Nat
  cat : ErrorCategory
deriving Repr, DecidableEq

/-- `error_id::to_error_code` (error.hpp lines 529-532):
`std::error_code(value_, get_error_category<>::cat)`. -/
def ErrorId.to_error_code (x : ErrorId) : ErrorCode :=
  ⟨x.value_, .leafCat⟩

/-- `leaf_detail::import_error_code` (error.hpp lines 450-469).  A zero
value yields `0`.  A nonzero value of the sentinel category yields
`(err_id & ~3) | 1`.  A nonzero value of a foreign category allocates
`new_id()`, stores the foreign code itself via `load_slot` under the new
identifier, and yields that identifier normalised.  The allocator state and
the thread's `slot<std::error_code>` state are threaded explicitly. -/
def import_error_code (ec : ErrorCode) (f : IdFactory) (w : World ErrorCode) :
    Nat × IdFactory × World ErrorCode :=
  if ec.val ≠ 0 then
    if ec.cat = .leafCat then
      ((ec.val &&& 4294967292) ||| 1, f, w)
    else
      let r := new_id f
      ((r.1 &&& 4294967292) ||| 1, r.2, load_slot r.1 ec w)
  else
    (0, f, w)

/-- `error_id::error_id(std::error_code const &)` (error.hpp lines 507-511):
`value_(leaf_detail::import_error_code(ec))`. -/
def errorIdOfErrorCode (ec : ErrorCode) (f : IdFactory) (w : World ErrorCode) :
    ErrorId × IdFactory × World ErrorCode :=
  let r := import_error_code ec f w
  (⟨r.1⟩, r.2.1, r.2.2)

/-- Modelled from the spec: a `Context` (spec sections 3-4.5; the concrete
`context` class lives in `boost/leaf/context.hpp`, which is not under
`src/`) bundling one storage slot per payload type.  One payload type `E` is
modelled; the context owns the slot object named `sid`, and its
`is_active()` flag is `World.ctxActive`. -/
structure Ctx (E : Type) where
  sid : Nat

/-- Modelled from the spec: `Context::activate()` activates each owned slot
and marks the context active. -/
def ctxActivate {E : Type} (c : Ctx E) (w : World E) : World E :=
  { slotActivate c.sid w with ctxActive := true }

/-- Modelled from the spec: `Context::deactivate()` deactivates each owned
slot and marks the context inactive. -/
def ctxDeactivate {E : Type} (c : Ctx E) (w : World E) : World E :=
  { slotDeactivate c.sid w with ctxActive := false }

/-- Modelled from the spec: `Context::propagate()` calls `propagate()` on
every owned slot. -/
def ctxPropagate {E : Type} (c : Ctx E) (w : World E) : World E :=
  slotPropagate c.sid w

/-- State of a `context_activator<Ctx>` (error.hpp lines 639-686): the
`std::uncaught_exceptions()` snapshot taken at construction and the `ctx_`
pointer (`none` models the null pointer). -/
structure Activator (E : Type) where
  uncaught_exceptions_ : Nat
  ctx_ : Option (Ctx E)

/-- `context_activator::context_activator(Ctx &)` (error.hpp lines 652-660):
snapshot the uncaught-exception count; if the context is already active,
hold no pointer and do nothing, otherwise hold the context and activate it. -/
def context_activator {E : Type} (c : Ctx E) (uncaught : Nat) (w : World E) :
    Activator E × World E :=
  if w.ctxActive then
    (⟨uncaught, none⟩, w)
  else
    (⟨uncaught, some c⟩, ctxActivate c w)

/-- `context_activator::~context_activator` (error.hpp lines 671-685): if no
pointer is held, do nothing; otherwise deactivate the context if it is
active, then, exactly when the current uncaught-exception count exceeds the
construction snapshot (abnormal scope exit), invoke `propagate()`. -/
def activator_dtor {E : Type} (a : Activator E) (uncaughtNow : Nat)
    (w : World E) : World E :=
  match a.ctx_ with
  | none => w
  | some c =>
    let w1 := if w.ctxActive then ctxDeactivate c w else w
    if a.uncaught_exceptions_ < uncaughtNow then ctxPropagate c w1 else w1

/-- Concrete single-slot state used by example theorems: slot object `7`
holds the payload `42` under identifier `1` and has slot `3` as recorded
predecessor. -/
def wC1 : World Nat :=
  ⟨fun j => if j = 7 then some (1, 42) else none,
   fun j => if j = 7 then some 3 else none,
   some 7, false⟩

/-- Concrete state used by example theorems: an active context whose slot
`0` is the top of the stack. -/
def wC4 : World Nat :=
  ⟨fun _ => none, fun _ => none, some 0, true⟩

/-- Concrete inactive state used by example theorems: slot `3` (belonging to
an outer scope) is the current top and holds the payload `9` under
identifier `5`. -/
def wC8 : World Nat :=
  ⟨fun j => if j = 3 then some (5, 9) else none,
   fun _ => none, some 3, false⟩

/-- Concrete state used by example theorems: slot `0` of payload type `Nat`
is the top and is empty. -/
def wC5 : World Nat :=
  ⟨fun _ => none, fun _ => none, some 0, false⟩

/-- Concrete `slot<std::error_code>` state used by example theorems: slot
`2` is the top and is empty. -/
def wEC : World ErrorCode :=
  ⟨fun _ => none, fun _ => none, some 2, false⟩

/-! ## Helper lemmas -/

/-- Masking with the low-two-bit tag mask is reduction modulo 4. -/
theorem land_three_eq_mod_four (v : Nat) : v &&& 3 = v % 4 := by
  have h := Nat.and_pow_two_sub_one_eq_mod v 2
  norm_num at h
  exact h

/-- Closed form of the shared counter after `n` allocations. -/
theorem counter_allocN (n : Nat) :
    (allocN n).counter = (W32 - 3 + 4 * n) % W32 := by
  induction n with
  | zero => simp [allocN, IdFactory.init, W32]
  | succ n ih =>
    have hstep : (allocN (n + 1)).counter = ((allocN n).counter + 4) % W32 := rfl
    rw [hstep, ih, Nat.mod_add_mod]
    have harith : W32 - 3 + 4 * n + 4 = W32 - 3 + 4 * (n + 1) := by omega
    rw [harith]

/-- The thread's `current_id` is `0` before any allocation and afterwards
equals the counter value of the latest allocation. -/
theorem current_allocN (n : Nat) :
    (allocN n).current_id = if n = 0 then 0 else (allocN n).counter := by
  cases n with
  | zero => rfl
  | succ n => rfl

/-- The shared counter always stays congruent to 1 modulo 4. -/
theorem counter_mod_four (n : Nat) : (allocN n).counter % 4 = 1 := by
  rw [counter_allocN]
  have h4 : (4 : Nat) ∣ W32 := by decide
  rw [Nat.mod_mod_of_dvd _ h4]
  have hw : W32 = 4294967296 := rfl
  omega

/-- Normalisation `(v & ~3) | 1` is the identity on 32-bit values already
carrying the tag `v % 4 = 1`. -/
theorem norm_tagged (v : Nat) (h1 : v % 4 = 1) (h2 : v < W32) :
    (v &&& 4294967292) ||| 1 = v := by
  have hd2 : (v &&& 4294967292) / 2 = v / 2 &&& 2147483646 := by
    have h := Nat.and_div_two (a := v) (b := 4294967292)
    norm_num at h
    exact h
  have hd4 : (v &&& 4294967292) / 4 = v / 4 := by
    have ha : (v &&& 4294967292) / 4 = ((v &&& 4294967292) / 2) / 2 := by
      omega
    rw [ha, hd2]
    have hb := Nat.and_div_two (a := v / 2) (b := 2147483646)
    norm_num at hb
    rw [hb]
    have hc : v / 2 / 2 = v / 4 := by omega
    rw [hc]
    have hd := Nat.and_pow_two_sub_one_eq_mod (v / 4) 30
    norm_num at hd
    rw [hd]
    have hv : v < 4294967296 := h2
    omega
  have hm2 : (v &&& 4294967292) % 2 = 0 := by
    have hiff := Nat.and_mod_two_eq_one (a := v) (b := 4294967292)
    omega
  have hm2' : (v &&& 4294967292) / 2 % 2 = 0 := by
    rw [hd2]
    have hiff := Nat.and_mod_two_eq_one (a := v / 2) (b := 2147483646)
    omega
  have hr : v &&& 4294967292 = 4 * (v / 4) := by omega
  rw [hr]
  have ho := Nat.mul_add_lt_is_or (b := 1) (i := 2) (by norm_num) (v / 4)
  norm_num at ho
  rw [← ho]
  omega

/-- `accumulate_slot` never changes the stack top. -/
theorem accumulate_slot_top {E : Type} [Inhabited E] (id : Nat) (f : E → E)
    (w : World E) : (accumulate_slot id f w).top = w.top := by
  unfold accumulate_slot
  split
  · split <;> rfl
  · rfl

/-! ## Claim theorems -/

/-- C1: for a slot with a recorded predecessor of the same payload type,
`propagate()` moves this slot's payload into the predecessor exactly when
the predecessor is empty (the source slot then becomes empty); if the
predecessor already holds a payload, `propagate()` changes nothing, so the
predecessor's payload is preserved. -/
theorem C1_propagate_fills_only_empty_predecessor {E : Type} (w : World E)
    (sid p : Nat) (hprev : w.prev sid = some p) (hne : p ≠ sid) :
    (w.store p = none →
      (slotPropagate sid w).store p = w.store sid ∧
      (slotPropagate sid w).store sid = none) ∧
    (w.store p ≠ none → slotPropagate sid w = w) := by
  constructor
  · intro hemp
    have hne' : sid ≠ p := fun h => hne h.symm
    simp [slotPropagate, hprev, hemp, hne']
  · intro hfull
    cases h : w.store p with
    | none => exact absurd h hfull
    | some v => simp [slotPropagate, hprev, h]

/-- Concrete instance of `C1_propagate_fills_only_empty_predecessor`: slot 7
holds payload `42` under id `1`, its predecessor slot 3 is empty; after
propagation the payload has moved to slot 3 and slot 7 is empty. -/
theorem C1_witness :
    (slotPropagate 7 wC1).store 3 = some (1, 42) ∧
    (slotPropagate 7 wC1).store 7 = none := by
  have h := (C1_propagate_fills_only_empty_predecessor wC1 7 3 rfl
    (by decide)).1 rfl
  exact ⟨h.1.trans rfl, h.2⟩

/-- C2: every identifier returned by `new_id()` carries the tag
`(id & 3) == 1`, and the value reported by `current_id()` is either `0` (no
allocation yet on the thread) or carries the tag — after any number of
allocations, including past the 32-bit wraparound of the shared counter. -/
theorem C2_identifier_tag_invariant (n : Nat) :
    (new_id (allocN n)).1 &&& 3 = 1 ∧
    (current_id (allocN n) = 0 ∨ current_id (allocN n) &&& 3 = 1) := by
  constructor
  · have h1 : (new_id (allocN n)).1 = (allocN (n + 1)).counter := rfl
    rw [h1, land_three_eq_mod_four]
    exact counter_mod_four (n + 1)
  · cases n with
    | zero => exact Or.inl rfl
    | succ n =>
      refine Or.inr ?_
      have h1 : current_id (allocN (n + 1)) = (allocN (n + 1)).counter := rfl
      rw [h1, land_three_eq_mod_four]
      exact counter_mod_four (n + 1)

/-- C3 counterexample: the identifier allocator is not strictly increasing
across all pairs of allocations — at the 32-bit wraparound, allocation
number `2^30` yields counter value `2^32 - 3` while allocation number
`2^30 + 1` yields `1`. -/
theorem C3_counterexample :
    (2 : Nat) ^ 30 < 2 ^ 30 + 1 ∧
    ¬ ((allocN (2 ^ 30)).counter < (allocN (2 ^ 30 + 1)).counter) := by
  constructor
  · exact Nat.lt_succ_self _
  · rw [counter_allocN, counter_allocN]
    decide

/-- C3 (amended): identifiers are strictly increasing in allocation order as
long as the shared 32-bit counter has not wrapped, i.e. for allocations
`1 ≤ m < n ≤ 2^30`. -/
theorem C3_monotone_before_wrap (m n : Nat) (h1 : 1 ≤ m) (h2 : m < n)
    (h3 : n ≤ 2 ^ 30) :
    (allocN m).counter < (allocN n).counter := by
  rw [counter_allocN, counter_allocN]
  simp only [W32]
  have hp : (2 : Nat) ^ 30 = 1073741824 := by norm_num
  omega

/-- Concrete instance of `C3_monotone_before_wrap` for the first two
allocations. -/
theorem C3_monotone_before_wrap_witness :
    (1 ≤ 1 ∧ 1 < 2 ∧ 2 ≤ (2 : Nat) ^ 30) ∧
    (allocN 1).counter < (allocN 2).counter :=
  ⟨⟨by decide, by decide, by decide⟩,
   C3_monotone_before_wrap 1 2 (by decide) (by decide) (by decide)⟩

/-- C4: constructing a `context_activator` against an already-active context
yields a guard holding no context pointer; construction leaves the state
(in particular every per-type slot-stack top) unchanged, and destruction of
that guard is the identity on any state, for any uncaught-exception counts —
it performs no deactivation and never invokes `propagate()`. -/
theorem C4_reentrant_guard_is_noop {E : Type} (c : Ctx E) (w : World E)
    (u : Nat) (h : w.ctxActive = true) :
    (context_activator c u w).2 = w ∧
    (context_activator c u w).1.ctx_ = none ∧
    ∀ (u2 : Nat) (w2 : World E),
      activator_dtor (context_activator c u w).1 u2 w2 = w2 := by
  have hc : context_activator c u w = (⟨u, none⟩, w) := by
    simp [context_activator, h]
  refine ⟨by rw [hc], by rw [hc], ?_⟩
  intro u2 w2
  rw [hc]
  rfl

/-- Concrete instance of `C4_reentrant_guard_is_noop` on the active state
`wC4`: construction changes nothing, the guard holds no context, and its
destructor leaves an arbitrary state (here `wC1`) untouched even with a
larger uncaught-exception count. -/
theorem C4_witness :
    (context_activator (⟨0⟩ : Ctx Nat) 0 wC4).2 = wC4 ∧
    (context_activator (⟨0⟩ : Ctx Nat) 0 wC4).1.ctx_ = none ∧
    activator_dtor (context_activator (⟨0⟩ : Ctx Nat) 0 wC4).1 5 wC1 = wC1 := by
  have h := C4_reentrant_guard_is_noop (⟨0⟩ : Ctx Nat) wC4 0 rfl
  exact ⟨h.1, h.2.1, h.2.2 5 wC1⟩

/-- C5: dispatching a one-argument callback goes through `accumulate_slot`;
with a slot active on the thread, the callback mutates the payload already
stored under the identifier in place, and otherwise a default-constructed
payload is stored and then mutated — so two accumulator loads for the same
identifier yield a single payload carrying both mutations in call order. -/
theorem C5_accumulator_mutates_in_place {E : Type} [Inhabited E] (w : World E)
    (i id : Nat) (f g : E → E) (htop : w.top = some i) (_hid : id ≠ 0) :
    (load_item id (Item.fn1 f) w = accumulate_slot id f w) ∧
    (∀ v, hasValue (w.store i) id = some v →
      (accumulate_slot id f w).store i = some (id, f v)) ∧
    (hasValue (w.store i) id = none →
      (accumulate_slot id f w).store i = some (id, f default)) ∧
    (∀ v, hasValue (w.store i) id = some v →
      (accumulate_slot id g (accumulate_slot id f w)).store i
        = some (id, g (f v))) ∧
    (hasValue (w.store i) id = none →
      (accumulate_slot id g (accumulate_slot id f w)).store i
        = some (id, g (f default))) := by
  have hstep : ∀ (h : E → E) (e : E), hasValue (w.store i) id = some e →
      accumulate_slot id h w =
      { w with store := fun j => if j = i then some (id, h e) else w.store j } := by
    intro h e he
    simp [accumulate_slot, htop, he]
  have hstep0 : ∀ (h : E → E), hasValue (w.store i) id = none →
      accumulate_slot id h w =
      { w with store := fun j => if j = i then some (id, h default) else w.store j } := by
    intro h he
    simp [accumulate_slot, htop, he]
  refine ⟨rfl, ?_, ?_, ?_, ?_⟩
  · intro v hv
    rw [hstep f v hv]
    simp
  · intro hv
    rw [hstep0 f hv]
    simp
  · intro v hv
    rw [hstep f v hv]
    have h2 : accumulate_slot id g
        ({ w with store := fun j => if j = i then some (id, f v) else w.store j }) =
        { w with store := fun j => if j = i then some (id, g (f v)) else w.store j } := by
      simp [accumulate_slot, htop, hasValue]
      funext j
      by_cases hj : j = i <;> simp [hj]
    rw [h2]
    simp
  · intro hv
    rw [hstep0 f hv]
    have h2 : accumulate_slot id g
        ({ w with store := fun j => if j = i then some (id, f default) else w.store j }) =
        { w with store := fun j => if j = i then some (id, g (f default)) else w.store j } := by
      simp [accumulate_slot, htop, hasValue]
      funext j
      by_cases hj : j = i <;> simp [hj]
    rw [h2]
    simp

/-- Concrete instance of `C5_accumulator_mutates_in_place`: on the empty
active slot `0` of `wC5`, accumulating `(+3)` and then `(*2)` under
identifier `1` leaves one payload `(0 + 3) * 2 = 6`. -/
theorem C5_witness :
    (accumulate_slot 1 (fun v => v * 2)
      (accumulate_slot 1 (fun v => v + 3) wC5)).store 0 = some (1, 6) := by
  have h := (C5_accumulator_mutates_in_place wC5 0 1 (fun v => v + 3)
    (fun v => v * 2) rfl (by decide)).2.2.2.2 rfl
  simpa using h

/-- C6: converting any `error_id` (zero included) to a platform error code
via `to_error_code` and importing that code back yields an identifier equal
to the original under `operator==`. -/
theorem C6_error_code_roundtrip (x : ErrorId) (f : IdFactory)
    (w : World ErrorCode)
    (hinv : x.value_ = 0 ∨ (x.value_ &&& 3 = 1 ∧ x.value_ < W32)) :
    ErrorId.beq (errorIdOfErrorCode (ErrorId.to_error_code x) f w).1 x = true := by
  rcases hinv with h0 | ⟨ht, hlt⟩
  · simp [errorIdOfErrorCode, import_error_code, ErrorId.to_error_code,
      ErrorId.beq, h0]
  · have h4 : x.value_ % 4 = 1 := by
      rw [← land_three_eq_mod_four]
      exact ht
    have hne : x.value_ ≠ 0 := by omega
    simp [errorIdOfErrorCode, import_error_code, ErrorId.to_error_code, hne,
      ErrorId.beq, norm_tagged _ h4 hlt]

/-- Concrete instance of `C6_error_code_roundtrip` at the tagged identifier
`5` (and allocator/slot states untouched by the sentinel-category path). -/
theorem C6_witness :
    ErrorId.beq
      (errorIdOfErrorCode (ErrorId.to_error_code ⟨5⟩) IdFactory.init wEC).1
      ⟨5⟩ = true :=
  C6_error_code_roundtrip ⟨5⟩ IdFactory.init wEC (Or.inr ⟨by decide, by decide⟩)

/-- C7: importing a nonzero error code of a foreign category allocates the
allocator's next identifier, records it in the allocator, and stores the
foreign code itself in the active `slot<std::error_code>` under that new
identifier, so that retrieval under the new identifier reproduces the
foreign code exactly; a nonzero code of the sentinel category is instead
recovered as the identifier it encodes, with allocator and slots untouched. -/
theorem C7_foreign_code_lifted (f : IdFactory) (w : World ErrorCode)
    (ec : ErrorCode) (i : Nat) (hc : f.counter % 4 = 1)
    (hcat : ec.cat ≠ ErrorCategory.leafCat) (hval : ec.val ≠ 0)
    (htop : w.top = some i) :
    ((import_error_code ec f w).1 = (f.counter + 4) % W32 ∧
     (import_error_code ec f w).1 ≠ 0 ∧
     (import_error_code ec f w).2.1.counter = (f.counter + 4) % W32 ∧
     hasValue ((import_error_code ec f w).2.2.store i)
       ((import_error_code ec f w).1) = some ec) ∧
    (∀ v : Nat, v ≠ 0 → v % 4 = 1 → v < W32 →
      import_error_code ⟨v, ErrorCategory.leafCat⟩ f w = (v, f, w)) := by
  have hid4 : (f.counter + 4) % W32 % 4 = 1 := by
    have h4 : (4 : Nat) ∣ W32 := by decide
    rw [Nat.mod_mod_of_dvd _ h4]
    omega
  have hidlt : (f.counter + 4) % W32 < W32 := Nat.mod_lt _ (by decide)
  have hnorm := norm_tagged _ hid4 hidlt
  have himp : import_error_code ec f w =
      (((f.counter + 4) % W32 &&& 4294967292) ||| 1,
       ⟨(f.counter + 4) % W32, (f.counter + 4) % W32⟩,
       load_slot ((f.counter + 4) % W32) ec w) := by
    simp [import_error_code, hval, hcat, new_id, generate_next_id]
  constructor
  · refine ⟨?_, ?_, ?_, ?_⟩
    · rw [himp]
      exact hnorm
    · rw [himp]
      show (((f.counter + 4) % W32 &&& 4294967292) ||| 1) ≠ 0
      rw [hnorm]
      omega
    · rw [himp]
    · rw [himp]
      show hasValue ((load_slot ((f.counter + 4) % W32) ec w).store i)
        (((f.counter + 4) % W32 &&& 4294967292) ||| 1) = some ec
      rw [hnorm]
      simp [load_slot, htop, hasValue]
  · intro v hv h4 hlt
    simp [import_error_code, hv, norm_tagged v h4 hlt]

/-- Concrete instance of `C7_foreign_code_lifted`: from the initial
allocator, importing the foreign code `(7, foreign 0)` with slot `2` active
yields the fresh identifier `1` under which the foreign code is retrievable
exactly, while the sentinel-category code `(9, leafCat)` is recovered as `9`
with no state change. -/
theorem C7_witness :
    (import_error_code ⟨7, ErrorCategory.foreign 0⟩ IdFactory.init wEC).1 = 1 ∧
    hasValue
      ((import_error_code ⟨7, ErrorCategory.foreign 0⟩ IdFactory.init wEC).2.2.store 2)
      ((import_error_code ⟨7, ErrorCategory.foreign 0⟩ IdFactory.init wEC).1)
      = some ⟨7, ErrorCategory.foreign 0⟩ ∧
    import_error_code ⟨9, ErrorCategory.leafCat⟩ IdFactory.init wEC
      = (9, IdFactory.init, wEC) := by
  have h := C7_foreign_code_lifted IdFactory.init wEC
    ⟨7, ErrorCategory.foreign 0⟩ 2 (by decide) (by decide) (by decide) rfl
  exact ⟨h.1.1.trans (by decide), h.1.2.2.2,
    h.2 9 (by decide) (by decide) (by decide)⟩

/-- C8: activating an inactive context through a `context_activator`,
loading a payload, and letting the guard's scope exit normally (the
uncaught-exception count at destruction equals the construction snapshot)
deactivates the context and restores the previous stack top, but never
invokes `propagate()`: the payload remains stored in the context's own slot
instance and the contents of every other slot — in particular any outer slot
of the same type — are unchanged. -/
theorem C8_normal_exit_no_propagation {E : Type} (c : Ctx E) (w : World E)
    (u id : Nat) (e : E) (h : w.ctxActive = false) :
    (activator_dtor (context_activator c u w).1 u
        (load_slot id e (context_activator c u w).2)).store c.sid
      = some (id, e) ∧
    (activator_dtor (context_activator c u w).1 u
        (load_slot id e (context_activator c u w).2)).top = w.top ∧
    (activator_dtor (context_activator c u w).1 u
        (load_slot id e (context_activator c u w).2)).ctxActive = false ∧
    ∀ p, p ≠ c.sid →
      (activator_dtor (context_activator c u w).1 u
          (load_slot id e (context_activator c u w).2)).store p = w.store p := by
  have hctor : context_activator c u w = (⟨u, some c⟩, ctxActivate c w) := by
    simp [context_activator, h]
  have hload : load_slot id e (ctxActivate c w) =
      { w with
        store := fun j => if j = c.sid then some (id, e) else w.store j,
        prev := fun j => if j = c.sid then w.top else w.prev j,
        top := some c.sid,
        ctxActive := true } := by
    simp [load_slot, ctxActivate, slotActivate]
  have hdtor : activator_dtor (⟨u, some c⟩ : Activator E) u
      ({ w with
        store := fun j => if j = c.sid then some (id, e) else w.store j,
        prev := fun j => if j = c.sid then w.top else w.prev j,
        top := some c.sid,
        ctxActive := true }) =
      { w with
        store := fun j => if j = c.sid then some (id, e) else w.store j,
        prev := fun j => if j = c.sid then w.top else w.prev j,
        top := w.top,
        ctxActive := false } := by
    simp [activator_dtor, ctxDeactivate, slotDeactivate]
  rw [hctor]
  simp only [hload, hdtor]
  refine ⟨by simp, by simp, by simp, ?_⟩
  intro p hp
  simp [hp]

/-- Concrete instance of `C8_normal_exit_no_propagation` on `wC8`: the
payload `(1, 4)` loaded inside the guarded scope stays in the context's slot
`0`, the previous top (slot `3`) is restored, and the outer slot `3` still
holds its own payload `(5, 9)`. -/
theorem C8_witness :
    (activator_dtor (context_activator (⟨0⟩ : Ctx Nat) 0 wC8).1 0
        (load_slot 1 4 (context_activator (⟨0⟩ : Ctx Nat) 0 wC8).2)).store 0
      = some (1, 4) ∧
    (activator_dtor (context_activator (⟨0⟩ : Ctx Nat) 0 wC8).1 0
        (load_slot 1 4 (context_activator (⟨0⟩ : Ctx Nat) 0 wC8).2)).top
      = some 3 ∧
    (activator_dtor (context_activator (⟨0⟩ : Ctx Nat) 0 wC8).1 0
        (load_slot 1 4 (context_activator (⟨0⟩ : Ctx Nat) 0 wC8).2)).store 3
      = some (5, 9) := by
  have h := C8_normal_exit_no_propagation (⟨0⟩ : Ctx Nat) wC8 0 1 4 rfl
  exact ⟨h.1, h.2.1.trans rfl, (h.2.2.2 3 (by decide)).trans rfl⟩

/-- C9: `error_id::load` on the zero identifier performs no stores and no
loader dispatch — the per-type state is returned untouched — and yields the
same zero identifier, for every list of items. -/
theorem C9_load_on_zero_id_is_noop {E : Type} [Inhabited E]
    (items : List (Item E)) (w : World E) :
    ErrorId.load ⟨0⟩ items w = (⟨0⟩, w) := by
  simp [ErrorId.load, ErrorId.value]

/-- C10: importing a `std::error_code` whose numeric value is `0` yields the
zero identifier for every category — no new identifier is allocated and no
payload is stored, so the allocator and the `slot<std::error_code>` state
come back unchanged; the `error_id` constructed from such a code is the zero
identifier. -/
theorem C10_zero_valued_code_is_no_error (cat : ErrorCategory)
    (f : IdFactory) (w : World ErrorCode) :
    import_error_code ⟨0, cat⟩ f w = (0, f, w) ∧
    errorIdOfErrorCode ⟨0, cat⟩ f w = (⟨0⟩, f, w) := by
  constructor <;> simp [import_error_code, errorIdOfErrorCode]

end Leaf
